import Mathlib

/-!
Verification development for the crednorth lending-CRM backend.

The definitions below are a shallow embedding of the bulk CSV dedupe and
ingestion pipeline: the CreditSea dedupe and lead-creation clients
(loans/services/creditsea_dedupe.py, loans/services/creditsea_lead.py), the
lender dispatcher (loans/services/lender_call.py), the bulk CSV pipeline
(loans/services/bulk_processor.py), and the natural-key upsert paths
(loans/services/lead_csv_processor.py, users/utils.py, users/models.py,
users/managers.py, users/signals.py).

External collaborators are abstracted as data: an HTTP exchange is a value of
HttpBehavior (an exception, or a status code with a body that may or may not
parse as JSON), and the persistent table is an association list keyed by
phone number.  Machine floats never reach a stored field: the one float
conversion in the source is immediately coerced to an integer field, and the
embedding folds that truncation into the parse.
-/

namespace Crednorth

/-- Truthiness of a Python string-or-None value: None and the empty string
are falsy, every other string is truthy. -/
def pyTruthy : Option String → Bool
  | none => false
  | some s => s ≠ ""

/-- ASCII lowercase mapping of one character, as str.lower acts on the
ASCII range; other characters pass through. -/
def pyLowerChar (c : Char) : Char :=
  if 'A' ≤ c ∧ c ≤ 'Z' then Char.ofNat (c.toNat + 32) else c

/-- Embedding of str.lower restricted to ASCII. -/
def pyLower (s : String) : String :=
  String.mk (s.toList.map pyLowerChar)

/-- ASCII uppercase mapping of one character, as str.upper acts on the
ASCII range; other characters pass through. -/
def pyUpperChar (c : Char) : Char :=
  if 'a' ≤ c ∧ c ≤ 'z' then Char.ofNat (c.toNat - 32) else c

/-- Embedding of str.upper restricted to ASCII. -/
def pyUpper (s : String) : String :=
  String.mk (s.toList.map pyUpperChar)

/-- Embedding of str.strip for the common ASCII whitespace characters. -/
def pyStrip (s : String) : String :=
  String.mk (((s.toList.dropWhile Char.isWhitespace).reverse.dropWhile Char.isWhitespace).reverse)

/-- Embedding of the Python expression a or b on string-or-None values:
the left operand when it is truthy, otherwise the right operand. -/
def pyOr (a b : Option String) : Option String :=
  if pyTruthy a then a else b

/-- Embedding of str.isdigit restricted to ASCII digits: true on a nonempty
string all of whose characters are digits. -/
def pyIsDigit (s : String) : Bool :=
  s ≠ "" && s.toList.all Char.isDigit

/-- Embedding of the filter over str.isdigit used to clean phone numbers:
keeps only the digit characters of the string. -/
def digitsOnly (s : String) : String :=
  String.mk (s.toList.filter Char.isDigit)

/-- Embedding of str.zfill: left-pads with zeros up to the width, keeping a
leading sign in front of the padding; strings at least as long as the width
are returned unchanged. -/
def pyZfill (s : String) (width : Nat) : String :=
  if s.length ≥ width then s
  else
    match s.toList with
    | c :: rest =>
        if c = '+' ∨ c = '-' then
          String.mk (c :: List.replicate (width - s.length) '0' ++ rest)
        else
          String.mk (List.replicate (width - s.length) '0' ++ s.toList)
    | [] => String.mk (List.replicate width '0')

/-- Numeric value of a list of ASCII digit characters. -/
def digitsVal (cs : List Char) : Nat :=
  cs.foldl (fun acc c => acc * 10 + (c.toNat - '0'.toNat)) 0

/-- Embedding of int(s) on a stripped string: an optional sign followed by a
nonempty run of digits; anything else fails.  Numeric-separator underscores
and non-ASCII digits are not modelled. -/
def pyInt (s : String) : Option Int :=
  match (pyStrip s).toList with
  | '+' :: cs => if cs ≠ [] ∧ cs.all Char.isDigit then some (digitsVal cs) else none
  | '-' :: cs => if cs ≠ [] ∧ cs.all Char.isDigit then some (-(digitsVal cs : Int)) else none
  | cs => if cs ≠ [] ∧ cs.all Char.isDigit then some (digitsVal cs) else none

/-- Decimal part of a float literal: digits before and after an optional
point.  Returns the digit string and the number of fractional digits, or
none if the shape is not sign-free digits with at most one point. -/
def floatMantissa (cs : List Char) : Option (List Char × Nat) :=
  match cs.span (fun c => c ≠ '.') with
  | (intPart, []) =>
      if intPart ≠ [] ∧ intPart.all Char.isDigit then some (intPart, 0) else none
  | (intPart, _ :: fracPart) =>
      if (intPart ≠ [] ∨ fracPart ≠ []) ∧ intPart.all Char.isDigit ∧
          fracPart.all Char.isDigit ∧ fracPart.all (fun c => c ≠ '.') then
        some (intPart ++ fracPart, fracPart.length)
      else none

/-- Embedding of float(s) immediately truncated toward zero by the integer
field it is stored into.  Handles an optional sign and a decimal mantissa;
exponent notation, infinities and NaN are not modelled. -/
def pyFloatTruncInt (s : String) : Option Int :=
  let signed : List Char → Option (Bool × List Char) := fun cs =>
    match cs with
    | '+' :: rest => some (false, rest)
    | '-' :: rest => some (true, rest)
    | rest => some (false, rest)
  match signed (pyStrip s).toList with
  | some (neg, cs) =>
      match floatMantissa cs with
      | some (digits, fracLen) =>
          let v : Nat := digitsVal digits / 10 ^ fracLen
          some (if neg then -(v : Int) else (v : Int))
      | none => none
  | none => none

/-- Calendar date with numeric year, month and day. -/
structure Date where
  year : Nat
  month : Nat
  day : Nat
deriving DecidableEq, Repr

/-- Leap-year rule of the proleptic Gregorian calendar. -/
def isLeap (y : Nat) : Bool :=
  y % 4 = 0 && (y % 100 ≠ 0 || y % 400 = 0)

/-- Number of days in a month of a given year. -/
def daysInMonth (y m : Nat) : Nat :=
  if m = 2 then (if isLeap y then 29 else 28)
  else if m = 4 ∨ m = 6 ∨ m = 9 ∨ m = 11 then 30
  else 31

/-- Validity of a date under the datetime constructor: year from 1 to 9999,
month from 1 to 12, day within the month. -/
def dateValid (d : Date) : Bool :=
  1 ≤ d.year && d.year ≤ 9999 && 1 ≤ d.month && d.month ≤ 12 &&
    1 ≤ d.day && d.day ≤ daysInMonth d.year d.month

/-- A four-digit year field as matched by the %Y directive. -/
def yearField (s : String) : Option Nat :=
  let cs := s.toList
  if cs.length = 4 ∧ cs.all Char.isDigit then some (digitsVal cs) else none

/-- A one-or-two-digit field as matched by the %m and %d directives, with
the given inclusive value bounds. -/
def twoDigitField (lo hi : Nat) (s : String) : Option Nat :=
  let cs := s.toList
  if (cs.length = 1 ∨ cs.length = 2) ∧ cs.all Char.isDigit then
    let v := digitsVal cs
    if lo ≤ v ∧ v ≤ hi then some v else none
  else none

/-- The order in which the three components of a date format appear. -/
inductive DateOrder where
  | ymd
  | dmy
deriving DecidableEq, Repr

/-- Embedding of datetime.strptime for one of the four fixed formats: split
on the separator into exactly three fields, read them in the given order,
and validate the resulting calendar date. -/
def parseDateWith (sep : Char) (ord : DateOrder) (s : String) : Option Date :=
  match (s.toList.splitOn sep).map String.mk with
  | [a, b, c] =>
      let pieces :=
        match ord with
        | .ymd => (yearField a, twoDigitField 1 12 b, twoDigitField 1 31 c)
        | .dmy => (yearField c, twoDigitField 1 12 b, twoDigitField 1 31 a)
      match pieces with
      | (some y, some m, some d) =>
          if dateValid ⟨y, m, d⟩ then some ⟨y, m, d⟩ else none
      | _ => none
  | _ => none

/-- Embedding of the shared date-of-birth parse loop: the four formats
%Y-%m-%d, %d-%m-%Y, %d/%m/%Y, %Y/%m/%d tried in order, first success
winning, failures silently dropped. -/
def parseDobFormats (s : String) : Option Date :=
  (parseDateWith '-' .ymd s).orElse fun _ =>
    (parseDateWith '-' .dmy s).orElse fun _ =>
      (parseDateWith '/' .dmy s).orElse fun _ =>
        parseDateWith '/' .ymd s

/-- JSON scalar values as produced by response.json(); nested containers do
not occur in the fields these clients read. -/
inductive JVal where
  | bool (b : Bool)
  | str (s : String)
  | num (n : Int)
  | null
deriving DecidableEq, Repr

/-- A parsed JSON object body: association of keys to scalar values. -/
abbrev JObj := List (String × JVal)

/-- Embedding of dict.get on a parsed JSON object. -/
def jget (o : JObj) (k : String) : Option JVal :=
  (o.find? (fun kv => kv.1 = k)).map (fun kv => kv.2)

/-- Embedding of str() applied to a JSON scalar. -/
def pyStr : JVal → String
  | .bool true => "True"
  | .bool false => "False"
  | .str s => s
  | .num n => toString n
  | .null => "None"

/-- Observable behavior of one HTTP exchange through requests.post: either
an exception (network failure, timeout, exhausted redirects, ...) or a
response with a status code and a body, where a body of none is one that
fails to parse as JSON. -/
inductive HttpBehavior where
  | exn
  | resp (status : Nat) (body : Option JObj)
deriving DecidableEq, Repr

/-- Embedding of response.raise_for_status: raises exactly for status codes
400 through 599. -/
def raisesForStatus (code : Nat) : Bool :=
  400 ≤ code && code < 600

/-- Normalized result dictionary returned by the clients and the
dispatcher: status and result are always present, the remaining keys only
in some outcomes. -/
structure RDict where
  status : String
  result : String
  lead_id : Option String := none
  utm_link : Option String := none
  message : Option String := none
deriving DecidableEq, Repr

/-- Embedding of check_creditsea_dedupe (loans/services/creditsea_dedupe.py).
The phone and PAN arguments are sent in the payload and do not influence the
normalized outcome, which depends only on the wire behavior; every raised
exception is caught and collapsed to FAILED/API_ERROR. -/
def check_creditsea_dedupe (phoneNumber panNumber : Option String) (w : HttpBehavior) : RDict :=
  let _payload := (phoneNumber, panNumber)
  match w with
  | .exn => { status := "FAILED", result := "API_ERROR" }
  | .resp code body =>
      if raisesForStatus code then { status := "FAILED", result := "API_ERROR" }
      else
        match body with
        | none => { status := "FAILED", result := "API_ERROR" }
        | some data =>
            if jget data "success" = some (.bool true) ∧ jget data "dedupe" = some (.bool true) then
              { status := "SUCCESS", result := "DUPLICATE" }
            else if jget data "success" = some (.bool true) ∧ jget data "dedupe" = some (.bool false) then
              { status := "SUCCESS", result := "NOT_DUPLICATE" }
            else
              { status := "FAILED", result := "API_ERROR" }

/-- A CSV row as handed to the clients: keys mapped to a value, where none
stands both for an absent key and for a None value filled in by the reader
for a short row. -/
abbrev Row := List (String × Option String)

/-- Embedding of dict.get on a row, with later duplicate keys shadowing
earlier ones as in a Python dict built by successive insertion. -/
def rowGet (row : Row) (k : String) : Option String :=
  match (row.reverse.find? (fun kv => kv.1 = k)).map (fun kv => kv.2) with
  | some v => v
  | none => none

/-- Required-field list of the lead creation client, in source order. -/
def leadRequiredFields : List String :=
  ["first_name", "last_name", "phoneNumber", "pan", "dob", "gender", "pinCode", "income", "employmentType"]

/-- A value fails the required-field check when it is None or blank after
stripping. -/
def fieldMissing (v : Option String) : Bool :=
  match v with
  | none => true
  | some s => pyStrip s = ""

/-- First required field of the lead creation client missing from the row,
in the order the source iterates them. -/
def firstMissingField (row : Row) : Option String :=
  leadRequiredFields.find? (fun f => fieldMissing (rowGet row f))

/-- Stand-in for the str(e) text of a non-HTTP requests exception; the
source stores the library-generated message, which carries no structure the
callers inspect. -/
def genericExnMessage : String := "network error"

/-- Stand-in for the str(e) text of a JSON decoding failure. -/
def jsonDecodeMessage : String := "JSON decode error"

/-- Stand-in for the str(e) text of an HTTPError for a status code. -/
def httpErrorMessage (code : Nat) : String :=
  "HTTP error " ++ toString code

/-- Embedding of create_creditsea_lead (loans/services/creditsea_lead.py).
Returns the normalized dictionary together with a flag recording whether the
network was consulted; the required-field validation returns before any
call.  A 4xx or 5xx status raises HTTPError, whose handler re-reads the body
for a message; every other exception collapses to FAILED/API_ERROR. -/
def create_creditsea_lead (row : Row) (w : HttpBehavior) : RDict × Bool :=
  match firstMissingField row with
  | some f =>
      ({ status := "FAILED", result := "VALIDATION_ERROR", message := some ("Missing field: " ++ f) }, false)
  | none =>
      match w with
      | .exn => ({ status := "FAILED", result := "API_ERROR", message := some genericExnMessage }, true)
      | .resp code body =>
          if raisesForStatus code then
            let msg :=
              match body with
              | some data =>
                  match jget data "message" with
                  | some v => pyStr v
                  | none => httpErrorMessage code
              | none => httpErrorMessage code
            ({ status := "FAILED", result := "API_REJECTED", message := some msg }, true)
          else
            match body with
            | none =>
                ({ status := "FAILED", result := "API_ERROR", message := some jsonDecodeMessage }, true)
            | some data =>
                if jget data "message" = some (.str "Lead generated successfully") then
                  ({ status := "SUCCESS", result := "LEAD_CREATED",
                     lead_id := some (pyStr ((jget data "leadId").getD (.str ""))),
                     utm_link := some (pyStr ((jget data "utmLink").getD (.str ""))) }, true)
                else
                  ({ status := "FAILED", result := "API_REJECTED",
                     message := some (match jget data "message" with
                       | some v => pyStr v
                       | none => "Unknown error") }, true)

/-- Wire behaviors available to one dispatcher invocation: one exchange for
the dedupe client and one for the lead creation client. -/
structure Env where
  dedupeWire : HttpBehavior
  leadWire : HttpBehavior
deriving DecidableEq, Repr

/-- External clients a dispatcher invocation can reach. -/
inductive ExtCall where
  | dedupeCall
  | leadCall
deriving DecidableEq, Repr

/-- Phone value the creditsea workflow extracts from a row: the first truthy
of phoneNumber, phonenumber and mobile, else the last of them. -/
def rowPhone (row : Row) : Option String :=
  pyOr (pyOr (rowGet row "phoneNumber") (rowGet row "phonenumber")) (rowGet row "mobile")

/-- PAN value the creditsea workflow extracts from a row. -/
def rowPan (row : Row) : Option String :=
  rowGet row "pan"

/-- Embedding of _process_creditsea (loans/services/lender_call.py): the
per-flag creditsea workflow, returning the normalized dictionary and the
list of clients invoked, in invocation order. -/
def process_creditsea (row : Row) (check_dedupe send_leads : Bool) (env : Env) : RDict × List ExtCall :=
  if check_dedupe ∧ ¬ send_leads then
    (check_creditsea_dedupe (rowPhone row) (rowPan row) env.dedupeWire, [.dedupeCall])
  else if ¬ check_dedupe ∧ send_leads then
    ((create_creditsea_lead row env.leadWire).1, [.leadCall])
  else if check_dedupe ∧ send_leads then
    let dedupe_result := check_creditsea_dedupe (rowPhone row) (rowPan row) env.dedupeWire
    if dedupe_result.status ≠ "SUCCESS" then
      (dedupe_result, [.dedupeCall])
    else if dedupe_result.result = "DUPLICATE" then
      ({ status := "SUCCESS", result := "DUPLICATE" }, [.dedupeCall])
    else
      ((create_creditsea_lead row env.leadWire).1, [.dedupeCall, .leadCall])
  else
    ({ status := "FAILED", result := "NO_ACTION_SELECTED" }, [])

/-- Embedding of process_lender (loans/services/lender_call.py): the
dispatcher over the lender registry, instrumented with the list of external
clients invoked.  The lowercase comparison embeds str.lower on the lender
name. -/
def process_lender (lender_name : String) (row_data : Row) (check_dedupe send_leads : Bool) (env : Env) : RDict × List ExtCall :=
  if ¬ check_dedupe ∧ ¬ send_leads then
    ({ status := "FAILED", result := "NO_ACTION_SELECTED" }, [])
  else if pyLower lender_name = "creditsea" then
    process_creditsea row_data check_dedupe send_leads env
  else
    ({ status := "FAILED", result := "UNSUPPORTED_LENDER" }, [])

/-- Python exception classes raised by the embedded code paths. -/
inductive PyErr where
  | valueError (msg : String)
  | validationError (msg : String)
  | typeError (msg : String)
  | attributeError
  | integrityError
deriving DecidableEq, Repr

/-- An input CSV as the reader sees it: the header line and the field lists
of the following lines. -/
structure InputCsv where
  header : List String
  records : List (List String)
deriving DecidableEq, Repr

/-- Field map of one DictReader row after the key-stripping comprehension
of _read_and_validate_csv: header keys stripped, values positional, with
the restval None for the keys a short record leaves unfilled. -/
def rowOfRecord (header : List String) (record : List String) : Row :=
  header.enum.map (fun ih => (pyStrip ih.2, record.get? ih.1))

/-- Embedding of the DictReader row followed by the key-strip
comprehension, with the restkey failure for overlong records. -/
def mkRowDict (header : List String) (record : List String) : Except PyErr Row :=
  if record.length > header.length then .error .attributeError
  else .ok (rowOfRecord header record)

/-- Embedding of the row-collection loop of _read_and_validate_csv over the
already-validated header; the underlying csv reader skips blank lines. -/
def buildRows (header : List String) : List (List String) → Except PyErr (List Row)
  | [] => .ok []
  | record :: rest =>
      if record = [] then buildRows header rest
      else
        match mkRowDict header record with
        | .error e => .error e
        | .ok row =>
            match buildRows header rest with
            | .error e => .error e
            | .ok rows => .ok (row :: rows)

/-- Error message for a CSV with no header line. -/
def emptyCsvMessage : String := "CSV file is empty or has no headers"

/-- Error message for a header with neither a phone-like nor a pan column. -/
def missingColumnMessage : String :=
  "CSV must contain at least one of these columns: 'phoneNumber' or 'pan'"

/-- Presence of a phone-number-like column among the stripped headers. -/
def hasPhoneColumn (headers : List String) : Bool :=
  headers.contains "phoneNumber" || headers.contains "phonenumber" || headers.contains "mobile"

/-- Presence of the pan column among the stripped headers. -/
def hasPanColumn (headers : List String) : Bool :=
  headers.contains "pan"

/-- Embedding of _read_and_validate_csv (loans/services/bulk_processor.py):
reject an empty file, then a header with neither a phone-like column nor a
pan column, then materialize the row dictionaries. -/
def read_and_validate_csv (csv : InputCsv) : Except PyErr (List Row) :=
  if csv.header.isEmpty then .error (.valueError emptyCsvMessage)
  else
    let headers := csv.header.map pyStrip
    if ¬ hasPhoneColumn headers ∧ ¬ hasPanColumn headers then
      .error (.valueError missingColumnMessage)
    else
      buildRows csv.header csv.records

/-- One output record of the pipeline, as assembled by _process_rows with
dict.get defaults for the optional keys. -/
structure ResultRow where
  row_number : Nat
  lender : String
  status : String
  result : String
  lead_id : String
  utm_link : String
  message : String
deriving DecidableEq, Repr

/-- Assembly of one ResultRow from a dispatcher outcome. -/
def mkResultRow (row_num : Nat) (lender : String) (r : RDict) : ResultRow :=
  { row_number := row_num
    lender := lender
    status := r.status
    result := r.result
    lead_id := r.lead_id.getD ""
    utm_link := r.utm_link.getD ""
    message := r.message.getD "" }

/-- Embedding of the inner lender loop of _process_rows for one row: one
dispatcher invocation and one ResultRow per lender, in order.  The counter
numbers the lender positions so the environment can assign a distinct wire
behavior pair to every single external exchange. -/
def processLendersGo (row : Row) (check_dedupe send_leads : Bool) (envAt : Nat → Nat → Env)
    (k : Nat) : Nat → List String → List ResultRow
  | _, [] => []
  | j, lender :: rest =>
      mkResultRow k lender (process_lender lender row check_dedupe send_leads (envAt k j)).1
        :: processLendersGo row check_dedupe send_leads envAt k (j + 1) rest

/-- Embedding of the outer row loop of _process_rows: rows enumerated from
1, each row crossed with every lender in order. -/
def processRowsGo (lenders : List String) (check_dedupe send_leads : Bool)
    (envAt : Nat → Nat → Env) : Nat → List Row → List ResultRow
  | _, [] => []
  | k, row :: rest =>
      processLendersGo row check_dedupe send_leads envAt k 0 lenders
        ++ processRowsGo lenders check_dedupe send_leads envAt (k + 1) rest

/-- Embedding of _process_rows with the enumeration started at 1. -/
def process_rows (rows : List Row) (lenders : List String) (check_dedupe send_leads : Bool)
    (envAt : Nat → Nat → Env) : List ResultRow :=
  processRowsGo lenders check_dedupe send_leads envAt 1 rows

/-- Fixed column order of the output CSV. -/
def csvFieldnames : List String :=
  ["row_number", "lender", "status", "result", "lead_id", "utm_link", "message"]

/-- Serialization of one ResultRow in the fixed column order, with the row
number stringified as the csv writer does. -/
def toCsvRow (r : ResultRow) : List String :=
  [toString r.row_number, r.lender, r.status, r.result, r.lead_id, r.utm_link, r.message]

/-- Embedding of process_csv (loans/services/bulk_processor.py): validate
and read the input, process every row against every lender, and write the
header line followed by the result rows.  The written file is returned as
its list of lines. -/
def process_csv (input : InputCsv) (lenders : List String) (check_dedupe send_leads : Bool)
    (envAt : Nat → Nat → Env) : Except PyErr (List (List String)) :=
  match read_and_validate_csv input with
  | .error e => .error e
  | .ok rows =>
      .ok (csvFieldnames :: (process_rows rows lenders check_dedupe send_leads envAt).map toCsvRow)

/-- The unified person record of the spec (User in users/models.py, with
the status column of the Lead schema variant that the spec folds into the
unified record).  Field defaults are the model field defaults. -/
structure UserRec where
  phone_number : String
  country_code : String := "91"
  email : Option String := none
  pan_number : String := ""
  first_name : String := ""
  last_name : String := ""
  gender : String := ""
  date_of_birth : Option Date := none
  age : Option Int := none
  city : String := ""
  state : String := ""
  pin_code : String := ""
  profession : String := ""
  monthly_income : Option Int := none
  bureau_score : Option Int := none
  income_mode : String := ""
  consent_taken : Bool := false
  status : String := "pending"
deriving DecidableEq, Repr

/-- The persistent table, keyed by phone number. -/
abbrev Store := List UserRec

/-- Embedding of User.objects.get(phone_number=p): the record stored under
the phone number, if any. -/
def lookupUser (store : Store) (p : String) : Option UserRec :=
  store.find? (fun r => r.phone_number = p)

/-- Persisting a record: replace the record stored under its phone number,
or prepend it when the key is new. -/
def storePut (store : Store) (u : UserRec) : Store :=
  if store.any (fun r => r.phone_number = u.phone_number) then
    store.map (fun r => if r.phone_number = u.phone_number then u else r)
  else
    u :: store

/-- Embedding of calculate_age (users/models.py): year difference minus one
when the (month, day) pair of today precedes that of the birth date, under
the lexicographic tuple order of the source. -/
def calculate_age (today : Date) (dob : Date) : Int :=
  (today.year : Int) - (dob.year : Int) -
    (if today.month < dob.month ∨ (today.month = dob.month ∧ today.day < dob.day) then 1 else 0)

/-- Embedding of validate_phone_number (users/models.py), returning the
message of the ValidationError it raises, if any. -/
def validate_phone_number (value : String) : Option String :=
  if value = "" then some "Phone number is required."
  else if ¬ pyIsDigit value then some "Phone number must contain only digits."
  else if value.length ≠ 10 then some "Phone number must be exactly 10 digits."
  else none

/-- Allowed fourth characters of a PAN. -/
def panFourthChars : List Char := ['P', 'C', 'H', 'F', 'A', 'T', 'B', 'G', 'J', 'L']

/-- ASCII uppercase letter test, as matched by the [A-Z] regex class. -/
def isUpperLetter (c : Char) : Bool :=
  'A' ≤ c && c ≤ 'Z'

/-- Embedding of validate_pan_number (users/models.py): empty values pass,
otherwise exactly 10 characters shaped as five uppercase letters, four
digits and one uppercase letter, with a restricted fourth letter and the
digit block between 0001 and 9999. -/
def validate_pan_number (value : String) : Option String :=
  if value = "" then none
  else if value.length ≠ 10 then some "PAN must be exactly 10 characters."
  else
    match value.toList with
    | [c0, c1, c2, c3, c4, d0, d1, d2, d3, c9] =>
        if ¬ ([c0, c1, c2, c3, c4].all isUpperLetter ∧ [d0, d1, d2, d3].all Char.isDigit ∧
              isUpperLetter c9) then
          some "PAN must have format: 5 uppercase letters, 4 digits, 1 uppercase letter."
        else if ¬ panFourthChars.contains c3 then
          some "Fourth character must be one of the allowed set."
        else
          let digitValue := digitsVal [d0, d1, d2, d3]
          if digitValue < 1 ∨ digitValue > 9999 then
            some "PAN digits must be between 0001 and 9999."
          else none
    | _ => some "PAN must have format: 5 uppercase letters, 4 digits, 1 uppercase letter."

/-- Embedding of validate_pin_code (users/models.py): empty values pass,
otherwise exactly six digit characters. -/
def validate_pin_code (value : String) : Option String :=
  if value = "" then none
  else if ¬ pyIsDigit value then some "Pin code must contain only digits."
  else if value.length ≠ 6 then some "Pin code must be exactly 6 digits."
  else none

/-- Embedding of User.clean (users/models.py): the model-level validation
run on every save, returning the first failing message. -/
def cleanUser (u : UserRec) : Option String :=
  match validate_phone_number u.phone_number with
  | some m => some m
  | none =>
      match validate_pan_number u.pan_number with
      | some m => some m
      | none =>
          match validate_pin_code u.pin_code with
          | some m => some m
          | none =>
              match u.bureau_score with
              | some s =>
                  if s < 0 ∨ s > 900 then some "Bureau score must be between 0 and 900."
                  else
                    match u.monthly_income with
                    | some i => if i < 0 then some "Monthly income must be a positive value." else none
                    | none => none
              | none =>
                  match u.monthly_income with
                  | some i => if i < 0 then some "Monthly income must be a positive value." else none
                  | none => none

/-- Message of the uniqueness validation on the phone number. -/
def uniquePhoneMessage : String := "User with this Phone number already exists."

/-- Embedding of User.save (users/models.py): recompute age from the date
of birth, validate, then persist.  The full_clean call is modelled by the
model clean method of the source together with the uniqueness rule of the
phone-number natural key; framework-internal field cleaning belongs to the
ORM, which the spec treats as an external collaborator.  On a validation
failure nothing is written.  The candidate is the record with its age
refreshed, as the save method mutates self before validating. -/
def saveCandidate (today : Date) (u : UserRec) : UserRec :=
  { u with age := u.date_of_birth.map (fun d => calculate_age today d) }

/-- Embedding of the save body over the candidate record. -/
def userSave (today : Date) (store : Store) (u : UserRec) (isInsert : Bool) :
    Except PyErr UserRec × Store :=
  match cleanUser (saveCandidate today u) with
  | some msg => (.error (.validationError msg), store)
  | none =>
      if isInsert ∧ (lookupUser store (saveCandidate today u).phone_number).isSome then
        (.error (.validationError uniquePhoneMessage), store)
      else
        (.ok (saveCandidate today u), storePut store (saveCandidate today u))

/-- A raw CSV record as a Python dict of string fields. -/
abbrev RawRow := List (String × String)

/-- Key-normalized dictionary access of the lead CSV path: keys lowercased
and stripped, entries with falsy values dropped, later duplicates winning as
in a Python dict comprehension. -/
def leadDataGet (row : RawRow) (k : String) : Option String :=
  ((((row.filter (fun kv => kv.2 ≠ "")).map (fun kv => (pyStrip (pyLower kv.1), kv.2))).reverse).find?
    (fun kv => kv.1 = k)).map (fun kv => kv.2)

/-- Key-normalized dictionary access of the user CSV path, which keeps
falsy values. -/
def userDataGet (row : RawRow) (k : String) : Option String :=
  (((row.map (fun kv => (pyStrip (pyLower kv.1), kv.2))).reverse).find?
    (fun kv => kv.1 = k)).map (fun kv => kv.2)

/-- Fallback between two dictionary keys: dict.get with the second lookup
as the default, taken only when the first key is absent. -/
def keyOr (a b : Option String) : Option String :=
  match a with
  | some v => some v
  | none => b

/-- Empty string promoted to an absent field. -/
def strOpt (s : String) : Option String :=
  if s = "" then none else some s

/-- Gender synonym table shared by both CSV paths: unmapped values pass
through unchanged. -/
def normalizeGender (g : String) : String :=
  match pyLower g with
  | "m" => "Male"
  | "male" => "Male"
  | "f" => "Female"
  | "female" => "Female"
  | "o" => "Other"
  | "other" => "Other"
  | _ => g

/-- Profession mapping of the lead CSV path: synonym table first, then the
exact canonical spellings, everything else dropped. -/
def normalizeProfessionLead (p : String) : Option String :=
  let mapped : Option String :=
    match pyLower p with
    | "salaried" => some "Salaried"
    | "self employed" => some "Self-Employed"
    | "self-employed" => some "Self-Employed"
    | "business" => some "Business"
    | _ => none
  match mapped with
  | some m => some m
  | none =>
      if p = "Salaried" ∨ p = "Self-Employed" ∨ p = "Business" then some p else none

/-- Profession mapping of the user CSV path, with its larger synonym
table. -/
def normalizeProfessionUser (p : String) : Option String :=
  let mapped : Option String :=
    match pyLower p with
    | "salaried" => some "Salaried"
    | "self employed" => some "Self-Employed"
    | "self_employed" => some "Self-Employed"
    | "self-employed" => some "Self-Employed"
    | "selfemployed" => some "Self-Employed"
    | "business" => some "Business"
    | _ => none
  match mapped with
  | some m => some m
  | none =>
      if p = "Salaried" ∨ p = "Self-Employed" ∨ p = "Business" then some p else none

/-- Income-mode synonym table of the user CSV path: unmapped values pass
through unchanged. -/
def normalizeIncomeMode (s : String) : String :=
  match pyLower s with
  | "cheque" => "Cheque"
  | "bank transfer" => "Bank Transfer"
  | "bank_transfer" => "Bank Transfer"
  | "banktransfer" => "Bank Transfer"
  | "cash" => "Cash"
  | _ => s

/-- Normalized field map of the lead CSV path: the lead_data dictionary of
create_or_update_lead_from_csv_row, with an absent entry for every key the
normalizer decided not to set. -/
structure LeadData where
  phone_number : String
  first_name : Option String := none
  last_name : Option String := none
  pan_number : Option String := none
  pin_code : Option String := none
  email : Option String := none
  gender : Option String := none
  date_of_birth : Option Date := none
  city : Option String := none
  state : Option String := none
  profession : Option String := none
  monthly_income : Option Int := none
  bureau_score : Option Int := none
  consent_taken : Option Bool := none
  status : Option String := none
deriving DecidableEq, Repr

/-- Embedding of the normalization phase of create_or_update_lead_from_csv_row
(loans/services/lead_csv_processor.py): hard-required phone number cleaned
to digits and length-checked, every other field optional with the documented
coercions. -/
def leadDataOfRow (row : RawRow) : Except PyErr LeadData :=
  let get := leadDataGet row
  let praw := pyStrip ((get "phone_number").getD "")
  if praw = "" then .error (.validationError "phone_number is required")
  else
    let phone := digitsOnly praw
    if phone.length ≠ 10 then
      .error (.validationError ("phone_number must be exactly 10 digits, got: " ++ phone))
    else
      let pinRaw := pyStrip ((keyOr (get "pin_code") (get "pincode")).getD "")
      let dobRaw := pyStrip ((keyOr (get "date_of_birth") (get "dob")).getD "")
      let profRaw := pyStrip ((keyOr (get "profession") (get "employment_type")).getD "")
      let incomeRaw := pyStrip ((keyOr (get "monthly_income") (get "income")).getD "")
      let bureauRaw := pyStrip ((get "bureau_score").getD "")
      let consentRaw := pyLower (pyStrip ((keyOr (get "consent_taken") (get "consent")).getD ""))
      let statusRaw := pyLower (pyStrip ((get "status").getD ""))
      .ok
        { phone_number := phone
          first_name := strOpt (pyStrip ((get "first_name").getD ""))
          last_name := strOpt (pyStrip ((get "last_name").getD ""))
          pan_number := strOpt (pyUpper (pyStrip ((keyOr (get "pan_number") (get "pan")).getD "")))
          pin_code := (strOpt pinRaw).map (fun v => if v.length ≠ 6 then pyZfill v 6 else v)
          email := strOpt (pyStrip ((get "email").getD ""))
          gender := (strOpt (pyStrip ((get "gender").getD ""))).map normalizeGender
          date_of_birth := (strOpt dobRaw).bind parseDobFormats
          city := (get "city").map pyStrip
          state := (get "state").map pyStrip
          profession := (strOpt profRaw).bind normalizeProfessionLead
          monthly_income := (strOpt incomeRaw).bind pyFloatTruncInt
          bureau_score := (strOpt bureauRaw).bind (fun v =>
            match pyInt v with
            | some s => if 0 ≤ s ∧ s ≤ 900 then some s else none
            | none => none)
          consent_taken :=
            if consentRaw = "true" ∨ consentRaw = "1" ∨ consentRaw = "yes" ∨ consentRaw = "y" then
              some true
            else if consentRaw = "false" ∨ consentRaw = "0" ∨ consentRaw = "no" ∨ consentRaw = "n" then
              some false
            else none
          status :=
            if statusRaw = "pending" ∨ statusRaw = "approved" ∨ statusRaw = "rejected" then
              some statusRaw
            else none }

/-- Overwrite-if-present on a plain field. -/
def ovr (new : Option α) (old : α) : α :=
  new.getD old

/-- Overwrite-if-present on an optional field. -/
def ovrO (new : Option α) (old : Option α) : Option α :=
  match new with
  | some v => some v
  | none => old

/-- Application of a normalized lead field map to a record: every present
field overwrites, every absent field is untouched, and the phone number is
never rewritten on an existing record. -/
def applyLeadUpdate (ld : LeadData) (r : UserRec) : UserRec :=
  { r with
    first_name := ovr ld.first_name r.first_name
    last_name := ovr ld.last_name r.last_name
    pan_number := ovr ld.pan_number r.pan_number
    pin_code := ovr ld.pin_code r.pin_code
    email := ovrO ld.email r.email
    gender := ovr ld.gender r.gender
    date_of_birth := ovrO ld.date_of_birth r.date_of_birth
    city := ovr ld.city r.city
    state := ovr ld.state r.state
    profession := ovr ld.profession r.profession
    monthly_income := ovrO ld.monthly_income r.monthly_income
    bureau_score := ovrO ld.bureau_score r.bureau_score
    consent_taken := ovr ld.consent_taken r.consent_taken
    status := ovr ld.status r.status }

/-- A fresh record carrying only the phone number and the model
defaults. -/
def userRecDefault (p : String) : UserRec :=
  { phone_number := p }

/-- Embedding of the upsert phase of create_or_update_lead_from_csv_row:
look up by phone number; update every present field of an existing record,
or construct a new record from the field map, and save either way. -/
def leadUpsert (today : Date) (store : Store) (ld : LeadData) :
    Except PyErr (UserRec × Bool) × Store :=
  match lookupUser store ld.phone_number with
  | some r =>
      match userSave today store (applyLeadUpdate ld r) false with
      | (.ok r2, s2) => (.ok (r2, false), s2)
      | (.error e, s2) => (.error e, s2)
  | none =>
      match userSave today store (applyLeadUpdate ld (userRecDefault ld.phone_number)) true with
      | (.ok r2, s2) => (.ok (r2, true), s2)
      | (.error e, s2) => (.error e, s2)

/-- Embedding of create_or_update_lead_from_csv_row
(loans/services/lead_csv_processor.py): normalization followed by the
natural-key upsert. -/
def create_or_update_lead_from_csv_row (today : Date) (store : Store) (row : RawRow) :
    Except PyErr (UserRec × Bool) × Store :=
  match leadDataOfRow row with
  | .error e => (.error e, store)
  | .ok ld => leadUpsert today store ld

/-- Normalized field map of the user CSV path: the user_data dictionary of
create_or_update_user_from_csv_row.  The always-assigned entries are plain
fields; email is always assigned and may carry None. -/
structure UserData where
  country_code : String
  email : Option String
  pan_number : Option String := none
  first_name : String
  last_name : String
  gender : Option String := none
  date_of_birth : Option Date := none
  city : Option String := none
  state : Option String := none
  pin_code : Option String := none
  profession : Option String := none
  monthly_income : Option Int := none
  bureau_score : Option Int := none
  income_mode : Option String := none
  consent_taken : Option Bool := none
deriving DecidableEq, Repr

/-- Embedding of the normalization phase of create_or_update_user_from_csv_row
(users/utils.py): phone cleaned to digits with no length check here, names
hard-required, every other field optional with the documented coercions.
Returns the cleaned phone number together with the field map. -/
def userDataOfRow (row : RawRow) : Except PyErr (String × UserData) :=
  let get := userDataGet row
  let praw := pyStrip ((get "phone_number").getD "")
  if praw = "" then .error (.validationError "phone_number is required")
  else
    let phone := digitsOnly praw
    let first := pyStrip ((get "first_name").getD "")
    let last := pyStrip ((get "last_name").getD "")
    if first = "" ∨ last = "" then
      .error (.validationError "first_name and last_name are required")
    else
      let panRaw :=
        match get "pan_number" with
        | some v => v
        | none => (get "pan").getD ""
      let pinRaw := pyStrip ((keyOr (get "pin_code") (get "pincode")).getD "")
      let dobRaw := pyStrip ((keyOr (get "date_of_birth") (get "dob")).getD "")
      let incomeRaw := pyStrip ((keyOr (get "monthly_income") (get "income")).getD "")
      let bureauRaw := pyStrip ((keyOr (get "bureau_score") (get "credit_score")).getD "")
      let consentRaw := pyStrip ((keyOr (get "consent_taken") (get "consent")).getD "")
      .ok (phone,
        { country_code := pyStrip ((get "country_code").getD "91")
          email := strOpt (pyStrip ((get "email").getD ""))
          pan_number := strOpt (pyUpper (pyStrip panRaw))
          first_name := first
          last_name := last
          gender := (strOpt (pyStrip ((get "gender").getD ""))).map normalizeGender
          date_of_birth := (strOpt dobRaw).bind parseDobFormats
          city := strOpt (pyStrip ((get "city").getD ""))
          state := strOpt (pyStrip ((get "state").getD ""))
          pin_code := (strOpt pinRaw).map digitsOnly
          profession := (strOpt (pyStrip ((get "profession").getD ""))).bind normalizeProfessionUser
          monthly_income := (strOpt incomeRaw).bind (fun v =>
            let digits := digitsOnly v
            if digits = "" then none else some (digitsVal digits.toList : Int))
          bureau_score := (strOpt bureauRaw).bind (fun v =>
            match pyInt v with
            | some s => if 0 ≤ s ∧ s ≤ 900 then some s else none
            | none => none)
          income_mode := (strOpt (pyStrip ((get "income_mode").getD ""))).map normalizeIncomeMode
          consent_taken := (strOpt consentRaw).map (fun v =>
            ["true", "yes", "y", "1", "true", "t"].contains (pyLower v)) })

/-- Application of a normalized user field map to a record: the
always-assigned fields overwrite unconditionally, the optional fields only
when present; the phone number is never part of the map on update. -/
def applyUserUpdate (ud : UserData) (r : UserRec) : UserRec :=
  { r with
    country_code := ud.country_code
    email := ud.email
    pan_number := ovr ud.pan_number r.pan_number
    first_name := ud.first_name
    last_name := ud.last_name
    gender := ovr ud.gender r.gender
    date_of_birth := ovrO ud.date_of_birth r.date_of_birth
    city := ovr ud.city r.city
    state := ovr ud.state r.state
    pin_code := ovr ud.pin_code r.pin_code
    profession := ovr ud.profession r.profession
    monthly_income := ovrO ud.monthly_income r.monthly_income
    bureau_score := ovrO ud.bureau_score r.bureau_score
    income_mode := ovr ud.income_mode r.income_mode
    consent_taken := ovr ud.consent_taken r.consent_taken }

/-- Embedding of UserManager.create_user (users/managers.py): reject an
empty or non-ten-digit phone number with ValueError, then construct and
save the record.  Password handling is authentication machinery outside the
pipeline and is not modelled. -/
def create_user (today : Date) (store : Store) (phone : String) (ud : UserData) :
    Except PyErr UserRec × Store :=
  if phone = "" then (.error (.valueError "Phone number is required"), store)
  else if ¬ (pyIsDigit phone ∧ phone.length = 10) then
    (.error (.valueError "Phone number must be exactly 10 digits"), store)
  else
    userSave today store (applyUserUpdate ud (userRecDefault phone)) true

/-- Embedding of create_or_update_user_from_csv_row (users/utils.py):
normalization, then lookup by the cleaned phone number, updating every
field of an existing record or creating through the manager. -/
def create_or_update_user_from_csv_row (today : Date) (store : Store) (row : RawRow) :
    Except PyErr (UserRec × Bool) × Store :=
  match userDataOfRow row with
  | .error e => (.error e, store)
  | .ok (phone, ud) =>
      match lookupUser store phone with
      | some r =>
          match userSave today store (applyUserUpdate ud r) false with
          | (.ok r2, s2) => (.ok (r2, false), s2)
          | (.error e, s2) => (.error e, s2)
      | none =>
          match create_user today store phone ud with
          | (.ok r2, s2) => (.ok (r2, true), s2)
          | (.error e, s2) => (.error e, s2)

/-- Companion metadata table: the set of phone numbers whose user row has a
UserMeta row, keyed one-to-one by the user. -/
abbrev MetaStore := List String

/-- Embedding of UserMeta.objects.create(user=instance): a forced insert
that violates the one-to-one primary key when a companion already
exists. -/
def userMetaObjectsCreate (metas : MetaStore) (u : UserRec) : Except PyErr MetaStore :=
  if u.phone_number ∈ metas then .error .integrityError
  else .ok (u.phone_number :: metas)

/-- Embedding of hasattr(instance, usermeta) in save_user_meta
(users/signals.py).  The reverse accessor created by the one-to-one field
is named meta (its related_name), so the attribute named usermeta never
exists on a user instance and the test is false for every instance and
every database state. -/
def hasUsermetaAttr (_u : UserRec) (_metas : MetaStore) : Bool :=
  false

/-- Embedding of the create_user_meta receiver (users/signals.py): create
the companion when the save was an insert. -/
def create_user_meta (metas : MetaStore) (u : UserRec) (created : Bool) : Except PyErr MetaStore :=
  if created then userMetaObjectsCreate metas u else .ok metas

/-- Embedding of the save_user_meta receiver (users/signals.py): create the
companion whenever the usermeta attribute is judged absent. -/
def save_user_meta (metas : MetaStore) (u : UserRec) : Except PyErr MetaStore :=
  if hasUsermetaAttr u metas then .ok metas
  else userMetaObjectsCreate metas u

/-- Modelled from the spec: the signal wiring that connects the two
receivers of users/signals.py to the post-save event is application
configuration not present under src; per the spec, creating or updating a
record triggers the companion-metadata step, i.e. the post-save dispatch
runs both receivers, in registration order, and a failure propagates to the
saver. -/
def postSaveUser (metas : MetaStore) (u : UserRec) (created : Bool) : Except PyErr MetaStore :=
  match create_user_meta metas u created with
  | .error e => .error e
  | .ok m1 => save_user_meta m1 u

/-!  Specification-side outcome functions.  These two definitions follow
the wording of the spec (as amended where a counterexample forces it), not
the control flow of the source, and the client theorems compare the two. -/

/-- Dedupe outcome as the amended spec sentence reads: a network failure,
an HTTP error status (4xx or 5xx), a body that does not parse, or a body
whose success and dedupe fields are not the expected booleans all collapse
to FAILED/API_ERROR; otherwise the dedupe boolean decides between
DUPLICATE and NOT_DUPLICATE. -/
def specDedupeOutcome (w : HttpBehavior) : RDict :=
  match w with
  | .exn => { status := "FAILED", result := "API_ERROR" }
  | .resp code body =>
      match body with
      | none => { status := "FAILED", result := "API_ERROR" }
      | some data =>
          if 400 ≤ code ∧ code < 600 then { status := "FAILED", result := "API_ERROR" }
          else
            match jget data "success", jget data "dedupe" with
            | some (.bool true), some (.bool true) => { status := "SUCCESS", result := "DUPLICATE" }
            | some (.bool true), some (.bool false) => { status := "SUCCESS", result := "NOT_DUPLICATE" }
            | _, _ => { status := "FAILED", result := "API_ERROR" }

/-- Lead-creation network outcome as the amended spec sentence reads, for a
row that passed the required-field validation: an exception is API_ERROR;
an HTTP error status is API_REJECTED carrying the body message when one
parses, else a library message; a non-error response whose body fails to
parse is API_ERROR; a parsed body is LEAD_CREATED exactly when its message
equals the success marker, else API_REJECTED with the body message or a
generic one. -/
def specLeadNetworkOutcome (w : HttpBehavior) : RDict :=
  match w with
  | .exn => { status := "FAILED", result := "API_ERROR", message := some genericExnMessage }
  | .resp code none =>
      if 400 ≤ code ∧ code < 600 then
        { status := "FAILED", result := "API_REJECTED", message := some (httpErrorMessage code) }
      else
        { status := "FAILED", result := "API_ERROR", message := some jsonDecodeMessage }
  | .resp code (some data) =>
      if 400 ≤ code ∧ code < 600 then
        { status := "FAILED", result := "API_REJECTED",
          message := some (((jget data "message").map pyStr).getD (httpErrorMessage code)) }
      else if jget data "message" = some (.str "Lead generated successfully") then
        { status := "SUCCESS", result := "LEAD_CREATED",
          lead_id := some (pyStr ((jget data "leadId").getD (.str ""))),
          utm_link := some (pyStr ((jget data "utmLink").getD (.str ""))) }
      else
        { status := "FAILED", result := "API_REJECTED",
          message := some (((jget data "message").map pyStr).getD "Unknown error") }

/-!  Claim C10 — companion metadata invariant. -/

/-- Claim C10 (code_bug evidence): after every insert of a record the
post-save receiver chain always raises an integrity error, whatever the
prior companion table: create_user_meta inserts the companion, then
save_user_meta tests the nonexistent attribute usermeta instead of the
reverse accessor meta, concludes the companion is missing, and attempts a
second insert against the one-to-one primary key.  The companion invariant
of the claim is therefore never maintained by a successful create. -/
theorem c10_companion_meta_duplicate_insert (metas : MetaStore) (u : UserRec) :
    postSaveUser metas u true = .error .integrityError := by
  by_cases h : u.phone_number ∈ metas
  · simp [postSaveUser, create_user_meta, save_user_meta, userMetaObjectsCreate, hasUsermetaAttr, h]
  · simp [postSaveUser, create_user_meta, save_user_meta, userMetaObjectsCreate, hasUsermetaAttr, h]

/-!  Claim C4 — unsupported lender. -/

/-- Claim C4 counterexample: with both flags false, routing an unregistered
lender returns NO_ACTION_SELECTED, not UNSUPPORTED_LENDER, because the
no-action test precedes the registry test. -/
theorem c4_unsupported_lender_counterexample :
    process_lender "hdfc" [] false false ⟨.exn, .exn⟩ =
      ({ status := "FAILED", result := "NO_ACTION_SELECTED" }, [])
    ∧ ("NO_ACTION_SELECTED" : String) ≠ "UNSUPPORTED_LENDER" := by
  exact ⟨rfl, by decide⟩

/-- Claim C4 as amended: for every lender name whose lowercase form is not
in the registry, every row and every flag combination with at least one
flag set, routing yields FAILED/UNSUPPORTED_LENDER with no external call;
with both flags false it yields FAILED/NO_ACTION_SELECTED, likewise with no
external call. -/
theorem c4_unsupported_lender (name : String) (row : Row) (env : Env)
    (h : pyLower name ≠ "creditsea") :
    process_lender name row true false env =
      ({ status := "FAILED", result := "UNSUPPORTED_LENDER" }, [])
    ∧ process_lender name row false true env =
        ({ status := "FAILED", result := "UNSUPPORTED_LENDER" }, [])
    ∧ process_lender name row true true env =
        ({ status := "FAILED", result := "UNSUPPORTED_LENDER" }, [])
    ∧ process_lender name row false false env =
        ({ status := "FAILED", result := "NO_ACTION_SELECTED" }, []) := by
  refine ⟨?_, ?_, ?_, ?_⟩ <;> simp [process_lender, h]

/-- Claim C4 witness: the amended theorem applied to the concrete lender
hdfc. -/
theorem c4_unsupported_lender_witness :
    process_lender "hdfc" [] true true ⟨.exn, .exn⟩ =
      ({ status := "FAILED", result := "UNSUPPORTED_LENDER" }, []) :=
  (c4_unsupported_lender "hdfc" [] ⟨.exn, .exn⟩ (by decide)).2.2.1

/-!  Claim C5 — dedupe client outcome collapse. -/

/-- Claim C5 counterexample: a non-2xx response (status 300, which
raise_for_status does not raise on) with a well-formed duplicate body does
not collapse to FAILED/API_ERROR; the claim asserts every non-2xx response
does. -/
theorem c5_dedupe_counterexample :
    check_creditsea_dedupe none none
        (.resp 300 (some [("success", .bool true), ("dedupe", .bool true)])) =
      { status := "SUCCESS", result := "DUPLICATE" }
    ∧ ({ status := "SUCCESS", result := "DUPLICATE" } : RDict) ≠
        { status := "FAILED", result := "API_ERROR" } := by
  exact ⟨rfl, by decide⟩

/-- Claim C5 as amended: for every phone/PAN pair and every wire behavior
the dedupe client returns exactly one of SUCCESS/DUPLICATE,
SUCCESS/NOT_DUPLICATE and FAILED/API_ERROR, and its outcome coincides with
the spec-side description in which a network failure, a 4xx or 5xx status
(rather than every non-2xx status), an unparsable body, or success/dedupe
fields that are not the expected booleans all collapse to FAILED/API_ERROR;
totality of the embedding is the absence of exception propagation. -/
theorem c5_dedupe_outcome (phone pan : Option String) (w : HttpBehavior) :
    (check_creditsea_dedupe phone pan w = { status := "SUCCESS", result := "DUPLICATE" }
      ∨ check_creditsea_dedupe phone pan w = { status := "SUCCESS", result := "NOT_DUPLICATE" }
      ∨ check_creditsea_dedupe phone pan w = { status := "FAILED", result := "API_ERROR" })
    ∧ check_creditsea_dedupe phone pan w = specDedupeOutcome w := by
  have hr : ∀ code : Nat, raisesForStatus code = true ↔ (400 ≤ code ∧ code < 600) := by
    intro code
    simp [raisesForStatus]
  cases w with
  | exn => exact ⟨Or.inr (Or.inr rfl), rfl⟩
  | resp code body =>
      cases body with
      | none =>
          by_cases hc : 400 ≤ code ∧ code < 600
          · constructor
            · right; right
              simp [check_creditsea_dedupe, (hr code).mpr hc]
            · simp [check_creditsea_dedupe, specDedupeOutcome, (hr code).mpr hc]
          · have hcf : raisesForStatus code = false := by
              rw [← Bool.not_eq_true, hr code]; exact hc
            constructor
            · right; right
              simp [check_creditsea_dedupe, hcf]
            · simp [check_creditsea_dedupe, specDedupeOutcome, hcf]
      | some data =>
          by_cases hc : 400 ≤ code ∧ code < 600
          · constructor
            · right; right
              simp [check_creditsea_dedupe, (hr code).mpr hc]
            · simp [check_creditsea_dedupe, specDedupeOutcome, (hr code).mpr hc, hc]
          · have hcf : raisesForStatus code = false := by
              rw [← Bool.not_eq_true, hr code]; exact hc
            rcases hs : jget data "success" with _ | jvs
            · constructor
              · right; right
                simp [check_creditsea_dedupe, hcf, hs]
              · simp [check_creditsea_dedupe, specDedupeOutcome, hcf, hc, hs]
            · rcases hd : jget data "dedupe" with _ | jvd
              · cases jvs <;>
                  constructor <;>
                    simp [check_creditsea_dedupe, specDedupeOutcome, hcf, hc, hs, hd]
              · cases jvs with
                | bool bs =>
                    cases jvd with
                    | bool bd =>
                        cases bs <;> cases bd <;> constructor <;>
                          simp [check_creditsea_dedupe, specDedupeOutcome, hcf, hc, hs, hd]
                    | str s => cases bs <;> constructor <;>
                        simp [check_creditsea_dedupe, specDedupeOutcome, hcf, hc, hs, hd]
                    | num n => cases bs <;> constructor <;>
                        simp [check_creditsea_dedupe, specDedupeOutcome, hcf, hc, hs, hd]
                    | null => cases bs <;> constructor <;>
                        simp [check_creditsea_dedupe, specDedupeOutcome, hcf, hc, hs, hd]
                | str s => constructor <;>
                    simp [check_creditsea_dedupe, specDedupeOutcome, hcf, hc, hs, hd]
                | num n => constructor <;>
                    simp [check_creditsea_dedupe, specDedupeOutcome, hcf, hc, hs, hd]
                | null => constructor <;>
                    simp [check_creditsea_dedupe, specDedupeOutcome, hcf, hc, hs, hd]

/-!  Claim C1 — dispatcher truth table for a registered lender. -/

/-- Claim C1: for every lender name whose lowercase form is the registry
entry creditsea, the dispatcher follows the four-row truth table over
(check_dedupe, send_leads): no action selected when both are false, the
dedupe client verbatim with only a dedupe call when only check_dedupe is
set, the lead client verbatim with only a lead call when only send_leads is
set, and with both set the dedupe client first, its non-SUCCESS outcome
returned as is, a DUPLICATE short-circuited to SUCCESS/DUPLICATE without a
lead call, and otherwise the lead client outcome after both calls. -/
theorem c1_dispatcher_truth_table (name : String) (row : Row) (env : Env)
    (hreg : pyLower name = "creditsea") :
    process_lender name row false false env =
      ({ status := "FAILED", result := "NO_ACTION_SELECTED" }, [])
    ∧ process_lender name row true false env =
        (check_creditsea_dedupe (rowPhone row) (rowPan row) env.dedupeWire, [.dedupeCall])
    ∧ process_lender name row false true env =
        ((create_creditsea_lead row env.leadWire).1, [.leadCall])
    ∧ ((check_creditsea_dedupe (rowPhone row) (rowPan row) env.dedupeWire).status ≠ "SUCCESS" →
        process_lender name row true true env =
          (check_creditsea_dedupe (rowPhone row) (rowPan row) env.dedupeWire, [.dedupeCall]))
    ∧ ((check_creditsea_dedupe (rowPhone row) (rowPan row) env.dedupeWire).status = "SUCCESS" →
        (check_creditsea_dedupe (rowPhone row) (rowPan row) env.dedupeWire).result = "DUPLICATE" →
        process_lender name row true true env =
          ({ status := "SUCCESS", result := "DUPLICATE" }, [.dedupeCall]))
    ∧ ((check_creditsea_dedupe (rowPhone row) (rowPan row) env.dedupeWire).status = "SUCCESS" →
        (check_creditsea_dedupe (rowPhone row) (rowPan row) env.dedupeWire).result ≠ "DUPLICATE" →
        process_lender name row true true env =
          ((create_creditsea_lead row env.leadWire).1, [.dedupeCall, .leadCall])) := by
  refine ⟨?_, ?_, ?_, ?_, ?_, ?_⟩
  · simp [process_lender]
  · simp [process_lender, process_creditsea, hreg]
  · simp [process_lender, process_creditsea, hreg]
  · intro h
    simp [process_lender, process_creditsea, hreg, h]
  · intro h1 h2
    simp [process_lender, process_creditsea, hreg, h1, h2]
  · intro h1 h2
    simp [process_lender, process_creditsea, hreg, h1, h2]

/-- Claim C1 witness: the truth table applied to the lender spelled
CREDITSEA, an empty row and failing wires, exercising the error-passthrough
row of the table. -/
theorem c1_dispatcher_truth_table_witness :
    process_lender "CREDITSEA" [] true true ⟨.exn, .exn⟩ =
      ({ status := "FAILED", result := "API_ERROR" }, [.dedupeCall]) :=
  (c1_dispatcher_truth_table "CREDITSEA" [] ⟨.exn, .exn⟩ (by decide)).2.2.2.1 (by decide)

/-!  Claim C6 — lead creation client contract. -/

/-- A row carrying all nine required fields of the lead creation client. -/
def leadRowComplete : Row :=
  [("first_name", some "John"), ("last_name", some "Doe"), ("phoneNumber", some "9876543210"),
   ("pan", some "ABCPM1234Z"), ("dob", some "1990-05-15"), ("gender", some "male"),
   ("pinCode", some "110011"), ("income", some "75000"), ("employmentType", some "salaried")]

/-- Claim C6 counterexample: a 2xx response whose body does not parse as
JSON yields FAILED/API_ERROR, where the claim asserts every 2xx body other
than the success marker yields FAILED/API_REJECTED. -/
theorem c6_lead_client_counterexample :
    create_creditsea_lead leadRowComplete (.resp 200 none) =
      ({ status := "FAILED", result := "API_ERROR", message := some jsonDecodeMessage }, true)
    ∧ ("API_ERROR" : String) ≠ "API_REJECTED" := by
  exact ⟨rfl, by decide⟩

/-- Claim C6 as amended: a missing or blank required field short-circuits to
FAILED/VALIDATION_ERROR naming the first such field, with no network call;
when all nine fields are present the outcome is the spec-side network
description, in which a parsed body is a successful creation exactly when
its message equals the success marker, any other parsed body is
API_REJECTED with the API-provided or generic message, and an unparsable
body is API_ERROR (rather than API_REJECTED). -/
theorem c6_lead_client (row : Row) (w : HttpBehavior) :
    (∀ f, firstMissingField row = some f →
        create_creditsea_lead row w =
          ({ status := "FAILED", result := "VALIDATION_ERROR",
             message := some ("Missing field: " ++ f) }, false))
    ∧ (firstMissingField row = none →
        create_creditsea_lead row w = (specLeadNetworkOutcome w, true)) := by
  constructor
  · intro f hf
    simp [create_creditsea_lead, hf]
  · intro hn
    cases w with
    | exn => simp [create_creditsea_lead, specLeadNetworkOutcome, hn]
    | resp code body =>
        have hr : raisesForStatus code = true ↔ (400 ≤ code ∧ code < 600) := by
          simp [raisesForStatus]
        by_cases hc : 400 ≤ code ∧ code < 600
        · have hct : raisesForStatus code = true := hr.mpr hc
          cases body with
          | none => simp [create_creditsea_lead, specLeadNetworkOutcome, hn, hct, hc]
          | some data =>
              rcases hm : jget data "message" with _ | jv <;>
                simp [create_creditsea_lead, specLeadNetworkOutcome, hn, hct, hc, hm]
        · have hcf : raisesForStatus code = false := by
            rw [← Bool.not_eq_true, hr]; exact hc
          cases body with
          | none => simp [create_creditsea_lead, specLeadNetworkOutcome, hn, hcf, hc]
          | some data =>
              by_cases hm : jget data "message" = some (.str "Lead generated successfully")
              · simp [create_creditsea_lead, specLeadNetworkOutcome, hn, hcf, hc, hm]
              · rcases hmv : jget data "message" with _ | jv <;>
                  simp [create_creditsea_lead, specLeadNetworkOutcome, hn, hcf, hc, hmv,
                    hmv ▸ hm]

/-- Claim C6 witness: the amended contract applied to an empty row, whose
first missing field is first_name and which makes no network call, and to a
complete row over a failing wire. -/
theorem c6_lead_client_witness :
    create_creditsea_lead [] .exn =
      ({ status := "FAILED", result := "VALIDATION_ERROR",
         message := some "Missing field: first_name" }, false)
    ∧ create_creditsea_lead leadRowComplete .exn =
        ({ status := "FAILED", result := "API_ERROR", message := some genericExnMessage }, true) := by
  constructor
  · exact (c6_lead_client [] .exn).1 "first_name" (by decide)
  · exact (c6_lead_client leadRowComplete .exn).2 (by decide)

/-!  Pipeline shape lemmas. -/

theorem processLendersGo_length (row : Row) (cd sl : Bool) (envAt : Nat → Nat → Env) (k : Nat) :
    ∀ (lenders : List String) (j : Nat),
      (processLendersGo row cd sl envAt k j lenders).length = lenders.length := by
  intro lenders
  induction lenders with
  | nil => intro j; rfl
  | cons l rest ih =>
      intro j
      simp [processLendersGo, ih]

theorem processLendersGo_getElem (row : Row) (cd sl : Bool) (envAt : Nat → Nat → Env) (k : Nat) :
    ∀ (lenders : List String) (j0 j : Nat) (l : String),
      lenders[j]? = some l →
      (processLendersGo row cd sl envAt k j0 lenders)[j]? =
        some (mkResultRow k l (process_lender l row cd sl (envAt k (j0 + j))).1) := by
  intro lenders
  induction lenders with
  | nil => intro j0 j l h; simp at h
  | cons hd rest ih =>
      intro j0 j l h
      cases j with
      | zero =>
          simp at h
          subst h
          simp [processLendersGo]
      | succ j =>
          simp at h
          have := ih (j0 + 1) j l h
          have harith : j0 + 1 + j = j0 + (j + 1) := by omega
          rw [harith] at this
          simpa [processLendersGo] using this

theorem processRowsGo_length (lenders : List String) (cd sl : Bool) (envAt : Nat → Nat → Env) :
    ∀ (rows : List Row) (k : Nat),
      (processRowsGo lenders cd sl envAt k rows).length = rows.length * lenders.length := by
  intro rows
  induction rows with
  | nil => intro k; simp [processRowsGo]
  | cons row rest ih =>
      intro k
      simp [processRowsGo, processLendersGo_length, ih]
      ring

theorem processRowsGo_getElem (lenders : List String) (cd sl : Bool) (envAt : Nat → Nat → Env) :
    ∀ (rows : List Row) (k i j : Nat) (row : Row) (l : String),
      rows[i]? = some row →
      lenders[j]? = some l →
      (processRowsGo lenders cd sl envAt k rows)[i * lenders.length + j]? =
        some (mkResultRow (k + i) l (process_lender l row cd sl (envAt (k + i) j)).1) := by
  intro rows
  induction rows with
  | nil => intro k i j row l h1 h2; simp at h1
  | cons r0 rest ih =>
      intro k i j row l h1 h2
      have hj : j < lenders.length := by
        by_contra hge
        rw [List.getElem?_eq_none (by omega)] at h2
        exact Option.noConfusion h2
      cases i with
      | zero =>
          simp at h1
          subst h1
          rw [show (0 * lenders.length + j) = j by omega]
          rw [processRowsGo]
          rw [List.getElem?_append_left (by rw [processLendersGo_length]; omega)]
          have hb := processLendersGo_getElem r0 cd sl envAt k lenders 0 j l h2
          rw [show (0 + j) = j by omega] at hb
          simpa using hb
      | succ i =>
          simp at h1
          have hm : (i + 1) * lenders.length = lenders.length + i * lenders.length := by ring
          rw [processRowsGo]
          rw [List.getElem?_append_right (by rw [processLendersGo_length]; omega)]
          rw [processLendersGo_length]
          rw [show ((i + 1) * lenders.length + j - lenders.length) = i * lenders.length + j by
            omega]
          have := ih (k + 1) i j row l h1 h2
          rw [show (k + 1 + i) = k + (i + 1) by omega] at this
          exact this

theorem buildRows_ok (header : List String) :
    ∀ records : List (List String),
      (∀ r ∈ records, r ≠ [] ∧ r.length ≤ header.length) →
      buildRows header records = .ok (records.map (rowOfRecord header)) := by
  intro records
  induction records with
  | nil => intro _; rfl
  | cons rec rest ih =>
      intro h
      have hr := h rec (by simp)
      have hrest : ∀ r ∈ rest, r ≠ [] ∧ r.length ≤ header.length := by
        intro r hmem
        exact h r (by simp [hmem])
      rw [buildRows]
      rw [if_neg hr.1]
      rw [show mkRowDict header rec = .ok (rowOfRecord header rec) by
        unfold mkRowDict
        rw [if_neg (by omega)]]
      rw [ih hrest]
      simp

theorem buildRows_error (header : List String) :
    ∀ (records : List (List String)) (e : PyErr),
      buildRows header records = .error e → e = .attributeError := by
  intro records
  induction records with
  | nil => intro e h; exact absurd h (by simp [buildRows])
  | cons rec rest ih =>
      intro e h
      rw [buildRows] at h
      by_cases hb : rec = []
      · rw [if_pos hb] at h
        exact ih e h
      · rw [if_neg hb] at h
        unfold mkRowDict at h
        by_cases hl : rec.length > header.length
        · rw [if_pos hl] at h
          cases h
          rfl
        · rw [if_neg hl] at h
          cases hrest : buildRows header rest with
          | error e2 =>
              rw [hrest] at h
              simp at h
              subst h
              exact ih _ hrest
          | ok rows =>
              rw [hrest] at h
              cases h

/-!  Claim C3 — pipeline output shape. -/

/-- Claim C3 counterexample: a data row with more fields than the header
aborts the whole run with the DictReader restkey failure instead of
producing an output CSV with one result row per (row, lender) pair. -/
theorem c3_pipeline_counterexample :
    process_csv ⟨["phoneNumber"], [["9876543210", "extra"]]⟩ ["creditsea"] true false
        (fun _ _ => ⟨.exn, .exn⟩) = .error .attributeError := by
  rfl

/-- Claim C3 as amended: for every input CSV whose header passes the
structural check and whose data rows are nonempty with no more fields than
the header, the pipeline output is exactly the fixed 7-column header line
written once, followed by one 7-column result line per (row, lender) pair
in row-major order, rows numbered from 1 — regardless of any per-pair
outcome, so no FAILED pair stops the remaining pairs. -/
theorem c3_pipeline_shape (input : InputCsv) (lenders : List String) (cd sl : Bool)
    (envAt : Nat → Nat → Env)
    (hhdr : hasPhoneColumn (input.header.map pyStrip) ∨ hasPanColumn (input.header.map pyStrip))
    (hrec : ∀ r ∈ input.records, r ≠ [] ∧ r.length ≤ input.header.length) :
    ∃ rows : List Row,
      read_and_validate_csv input = .ok rows
      ∧ rows.length = input.records.length
      ∧ process_csv input lenders cd sl envAt =
          .ok (csvFieldnames :: (process_rows rows lenders cd sl envAt).map toCsvRow)
      ∧ (process_rows rows lenders cd sl envAt).length = input.records.length * lenders.length
      ∧ (∀ line ∈ (process_rows rows lenders cd sl envAt).map toCsvRow, line.length = 7)
      ∧ (∀ (i j : Nat) (row : Row) (l : String),
          rows[i]? = some row → lenders[j]? = some l →
          ((process_rows rows lenders cd sl envAt).map toCsvRow)[i * lenders.length + j]? =
            some (toCsvRow (mkResultRow (i + 1) l
              (process_lender l row cd sl (envAt (i + 1) j)).1))) := by
  have hne : input.header.isEmpty = false := by
    cases hh : input.header with
    | nil =>
        rw [hh] at hhdr
        simp [hasPhoneColumn, hasPanColumn] at hhdr
    | cons a rest => rfl
  have hread : read_and_validate_csv input = .ok (input.records.map (rowOfRecord input.header)) := by
    unfold read_and_validate_csv
    rw [if_neg (by simp [hne])]
    rw [if_neg (by
      rcases hhdr with h | h
      · intro hcon
        exact absurd h (by simp [hcon.1])
      · intro hcon
        exact absurd h (by simp [hcon.2]))]
    exact buildRows_ok input.header input.records hrec
  refine ⟨input.records.map (rowOfRecord input.header), hread, by simp, ?_, ?_, ?_, ?_⟩
  · unfold process_csv
    rw [hread]
  · rw [process_rows, processRowsGo_length]
    simp
  · intro line hline
    rcases List.mem_map.mp hline with ⟨rr, _, heq⟩
    rw [← heq]
    rfl
  · intro i j row l h1 h2
    rw [List.getElem?_map]
    rw [process_rows, processRowsGo_getElem lenders cd sl envAt _ 1 i j row l h1 h2]
    rw [show (1 + i) = i + 1 by omega]
    rfl

/-- Claim C3 witness: the amended shape theorem applied to a two-row,
one-lender input, yielding the header line plus two result lines. -/
theorem c3_pipeline_shape_witness :
    process_csv ⟨["phoneNumber"], [["9876543210"], ["9123456789"]]⟩ ["creditsea"] true false
        (fun _ _ => ⟨.exn, .exn⟩) =
      .ok [csvFieldnames,
        ["1", "creditsea", "FAILED", "API_ERROR", "", "", ""],
        ["2", "creditsea", "FAILED", "API_ERROR", "", "", ""]] := by
  obtain ⟨rows, h1, _, h3, _, _, _⟩ :=
    c3_pipeline_shape ⟨["phoneNumber"], [["9876543210"], ["9123456789"]]⟩ ["creditsea"] true false
      (fun _ _ => ⟨.exn, .exn⟩) (Or.inl (by decide)) (by decide)
  have hrows : rows =
      [rowOfRecord ["phoneNumber"] ["9876543210"], rowOfRecord ["phoneNumber"] ["9123456789"]] := by
    have : read_and_validate_csv ⟨["phoneNumber"], [["9876543210"], ["9123456789"]]⟩ =
        .ok [rowOfRecord ["phoneNumber"] ["9876543210"], rowOfRecord ["phoneNumber"] ["9123456789"]] := by
      rfl
    rw [this] at h1
    cases h1
    rfl
  subst hrows
  rw [h3]
  rfl

/-!  Claim C7 — structural header validation. -/

/-- Claim C7: a header containing none of the phoneNumber, phonenumber,
mobile and pan columns (after stripping) makes the pipeline fail with the
single descriptive structural ValueError, for every lender list, flag pair
and environment and before any row is read; a header containing at least
one of them never produces a structural ValueError, whatever the rows. -/
theorem c7_header_validation (input : InputCsv) (lenders : List String) (cd sl : Bool)
    (envAt : Nat → Nat → Env) :
    (¬ (hasPhoneColumn (input.header.map pyStrip) ∨ hasPanColumn (input.header.map pyStrip)) →
      process_csv input lenders cd sl envAt =
        .error (.valueError
          (if input.header.isEmpty then emptyCsvMessage else missingColumnMessage)))
    ∧ ((hasPhoneColumn (input.header.map pyStrip) ∨ hasPanColumn (input.header.map pyStrip)) →
        ∀ msg, process_csv input lenders cd sl envAt ≠ .error (.valueError msg)) := by
  constructor
  · intro h
    push_neg at h
    by_cases he : input.header.isEmpty
    · unfold process_csv read_and_validate_csv
      rw [if_pos he]
      simp [he]
    · unfold process_csv read_and_validate_csv
      rw [if_neg he]
      rw [if_pos (by
        constructor
        · simp [h.1]
        · simp [h.2])]
      simp [he]
  · intro h msg
    have hne : input.header.isEmpty = false := by
      cases hh : input.header with
      | nil =>
          rw [hh] at h
          simp [hasPhoneColumn, hasPanColumn] at h
      | cons a rest => rfl
    unfold process_csv read_and_validate_csv
    rw [if_neg (by simp [hne])]
    rw [if_neg (by
      rcases h with h | h
      · intro hcon
        exact absurd h (by simp [hcon.1])
      · intro hcon
        exact absurd h (by simp [hcon.2]))]
    cases hb : buildRows input.header input.records with
    | error e =>
        have := buildRows_error input.header input.records e hb
        subst this
        intro hcon
        cases hcon
    | ok rows =>
        intro hcon
        cases hcon

/-- Claim C7 witness: the validation theorem applied to a header with
neither column, and to a pan-only header with no rows. -/
theorem c7_header_validation_witness :
    process_csv ⟨["name"], [["x"]]⟩ ["creditsea"] true false (fun _ _ => ⟨.exn, .exn⟩) =
      .error (.valueError missingColumnMessage)
    ∧ process_csv ⟨["pan"], []⟩ ["creditsea"] true false (fun _ _ => ⟨.exn, .exn⟩) ≠
        .error (.valueError emptyCsvMessage) := by
  constructor
  · exact (c7_header_validation ⟨["name"], [["x"]]⟩ ["creditsea"] true false
      (fun _ _ => ⟨.exn, .exn⟩)).1 (by decide)
  · exact (c7_header_validation ⟨["pan"], []⟩ ["creditsea"] true false
      (fun _ _ => ⟨.exn, .exn⟩)).2 (by decide) emptyCsvMessage

/-!  Store and save lemmas. -/

theorem lookupUser_cons_self (store : Store) (u : UserRec) :
    lookupUser (u :: store) u.phone_number = some u := by
  simp [lookupUser, List.find?]

theorem lookupUser_map_replace (u : UserRec) :
    ∀ store : Store,
      store.any (fun r => r.phone_number = u.phone_number) = true →
      lookupUser (store.map (fun r => if r.phone_number = u.phone_number then u else r))
        u.phone_number = some u := by
  intro store
  induction store with
  | nil => intro h; simp at h
  | cons r rest ih =>
      intro h
      by_cases hr : r.phone_number = u.phone_number
      · simp [lookupUser, List.find?, hr]
      · have hrest : rest.any (fun x => x.phone_number = u.phone_number) = true := by
          simp [List.any_cons, hr] at h
          simpa using h
        have := ih hrest
        simpa [lookupUser, List.find?, hr] using this

theorem lookupUser_storePut (store : Store) (u : UserRec) :
    lookupUser (storePut store u) u.phone_number = some u := by
  unfold storePut
  by_cases ha : store.any (fun r => r.phone_number = u.phone_number) = true
  · rw [if_pos ha]
    exact lookupUser_map_replace u store ha
  · rw [if_neg ha]
    exact lookupUser_cons_self store u

theorem userSave_ok {today : Date} {store : Store} {u : UserRec} {ins : Bool}
    {out : UserRec} {s2 : Store} (h : userSave today store u ins = (.ok out, s2)) :
    out = saveCandidate today u
    ∧ s2 = storePut store out
    ∧ cleanUser out = none
    ∧ (ins = true → lookupUser store out.phone_number = none) := by
  unfold userSave at h
  split at h
  · exact absurd h (by simp)
  · next hclean =>
      split at h
      · exact absurd h (by simp)
      · next hcond =>
          have hp := Prod.ext_iff.mp h
          have hout : out = saveCandidate today u := (Except.ok.inj hp.1).symm
          refine ⟨hout, by rw [hout]; exact hp.2.symm, hout ▸ hclean, ?_⟩
          intro hins
          have hns : ¬ (lookupUser store (saveCandidate today u).phone_number).isSome := by
            intro hsome
            exact hcond ⟨by simp [hins], hsome⟩
          rw [hout]
          exact Option.not_isSome_iff_eq_none.mp hns

theorem saveCandidate_phone (today : Date) (u : UserRec) :
    (saveCandidate today u).phone_number = u.phone_number := rfl

theorem applyLeadUpdate_phone (ld : LeadData) (r : UserRec) :
    (applyLeadUpdate ld r).phone_number = r.phone_number := rfl

theorem applyUserUpdate_phone (ud : UserData) (r : UserRec) :
    (applyUserUpdate ud r).phone_number = r.phone_number := rfl

theorem leadUpsert_ok_save {today : Date} {store : Store} {ld : LeadData} {r2 : UserRec}
    {c2 : Bool} {s2 : Store}
    (hup : leadUpsert today store ld = (.ok (r2, c2), s2)) :
    ∃ (u : UserRec) (ins : Bool), userSave today store u ins = (.ok r2, s2) := by
  unfold leadUpsert at hup
  rcases hl : lookupUser store ld.phone_number with _ | r <;> rw [hl] at hup <;> dsimp only at hup
  · rcases hsv : userSave today store (applyLeadUpdate ld (userRecDefault ld.phone_number)) true
      with ⟨res, st⟩
    rw [hsv] at hup
    cases res with
    | error e => exact absurd hup (by simp)
    | ok rr =>
        dsimp only at hup
        obtain ⟨hfst, hsnd⟩ := Prod.ext_iff.mp hup
        have hr : rr = r2 := congrArg Prod.fst (Except.ok.inj hfst)
        have hs : st = s2 := hsnd
        exact ⟨_, true, by rw [hsv, hr, hs]⟩
  · rcases hsv : userSave today store (applyLeadUpdate ld r) false with ⟨res, st⟩
    rw [hsv] at hup
    cases res with
    | error e => exact absurd hup (by simp)
    | ok rr =>
        dsimp only at hup
        obtain ⟨hfst, hsnd⟩ := Prod.ext_iff.mp hup
        have hr : rr = r2 := congrArg Prod.fst (Except.ok.inj hfst)
        have hs : st = s2 := hsnd
        exact ⟨_, false, by rw [hsv, hr, hs]⟩

theorem userUpsert_ok_save {today : Date} {store : Store} {row : RawRow} {r2 : UserRec}
    {c2 : Bool} {s2 : Store}
    (hup : create_or_update_user_from_csv_row today store row = (.ok (r2, c2), s2)) :
    ∃ (u : UserRec) (ins : Bool), userSave today store u ins = (.ok r2, s2) := by
  unfold create_or_update_user_from_csv_row at hup
  rcases hd : userDataOfRow row with e | ⟨phone, ud⟩ <;> rw [hd] at hup <;> dsimp only at hup
  · exact absurd hup (by simp)
  · rcases hl : lookupUser store phone with _ | r <;> rw [hl] at hup <;> dsimp only at hup
    · rcases hcu : create_user today store phone ud with ⟨res, st⟩
      rw [hcu] at hup
      cases res with
      | error e => exact absurd hup (by simp)
      | ok rr =>
          dsimp only at hup
          obtain ⟨hfst, hsnd⟩ := Prod.ext_iff.mp hup
          have hr : rr = r2 := congrArg Prod.fst (Except.ok.inj hfst)
          have hs : st = s2 := hsnd
          unfold create_user at hcu
          by_cases hp0 : phone = ""
          · rw [if_pos hp0] at hcu
            exact absurd (Prod.ext_iff.mp hcu).1 (by simp)
          · rw [if_neg hp0] at hcu
            by_cases hp1 : (pyIsDigit phone = true ∧ phone.length = 10)
            · rw [if_neg (by simpa using hp1)] at hcu
              exact ⟨_, true, by rw [hcu, hr, hs]⟩
            · rw [if_pos (by simpa using hp1)] at hcu
              exact absurd (Prod.ext_iff.mp hcu).1 (by simp)
    · rcases hsv : userSave today store (applyUserUpdate ud r) false with ⟨res, st⟩
      rw [hsv] at hup
      cases res with
      | error e => exact absurd hup (by simp)
      | ok rr =>
          dsimp only at hup
          obtain ⟨hfst, hsnd⟩ := Prod.ext_iff.mp hup
          have hr : rr = r2 := congrArg Prod.fst (Except.ok.inj hfst)
          have hs : st = s2 := hsnd
          exact ⟨_, false, by rw [hsv, hr, hs]⟩

theorem lookupUser_none_of_lengths {store : Store} {p : String}
    (hwf : ∀ r ∈ store, r.phone_number.length = 10) (hp : p.length ≠ 10) :
    lookupUser store p = none := by
  cases hfind : lookupUser store p with
  | none => rfl
  | some r =>
      have hmem := List.mem_of_find?_eq_some hfind
      have hpred := List.find?_some hfind
      have hr : r.phone_number = p := by simpa using hpred
      exact absurd (hr ▸ hwf r hmem) hp

theorem userDataOfRow_cases (row : RawRow) :
    (∃ m, userDataOfRow row = .error (.validationError m))
    ∨ ∃ ud, userDataOfRow row =
        .ok (digitsOnly (pyStrip ((userDataGet row "phone_number").getD "")), ud) := by
  unfold userDataOfRow
  by_cases h1 : pyStrip ((userDataGet row "phone_number").getD "") = ""
  · rw [if_pos h1]
    exact Or.inl ⟨_, rfl⟩
  · rw [if_neg h1]
    dsimp only
    by_cases h2 : pyStrip ((userDataGet row "first_name").getD "") = ""
        ∨ pyStrip ((userDataGet row "last_name").getD "") = ""
    · rw [if_pos h2]
      exact Or.inl ⟨_, rfl⟩
    · rw [if_neg h2]
      exact Or.inr ⟨_, rfl⟩

/-!  Claim C9 — age derivation. -/

/-- Claim C9: every record the save path persists — directly, through the
lead upsert or through the user upsert — carries an age recomputed from its
date of birth: the year difference minus one exactly when the (month, day)
pair of today precedes that of the birth date; and a record without a date
of birth is stored with age None.  The saved record is what the store then
holds under its phone number. -/
theorem c9_age_derivation :
    (∀ (today : Date) (store : Store) (u : UserRec) (ins : Bool) (out : UserRec) (s2 : Store),
      userSave today store u ins = (.ok out, s2) →
      (∀ d : Date, out.date_of_birth = some d →
        out.age = some ((today.year : Int) - (d.year : Int) -
          (if today.month < d.month ∨ (today.month = d.month ∧ today.day < d.day) then 1 else 0)))
      ∧ (out.date_of_birth = none → out.age = none)
      ∧ lookupUser s2 out.phone_number = some out)
    ∧ (∀ (today : Date) (store : Store) (ld : LeadData) (r2 : UserRec) (c2 : Bool) (s2 : Store),
        leadUpsert today store ld = (.ok (r2, c2), s2) →
        (∀ d : Date, r2.date_of_birth = some d →
          r2.age = some ((today.year : Int) - (d.year : Int) -
            (if today.month < d.month ∨ (today.month = d.month ∧ today.day < d.day) then 1 else 0)))
        ∧ (r2.date_of_birth = none → r2.age = none))
    ∧ (∀ (today : Date) (store : Store) (row : RawRow) (r2 : UserRec) (c2 : Bool) (s2 : Store),
        create_or_update_user_from_csv_row today store row = (.ok (r2, c2), s2) →
        (∀ d : Date, r2.date_of_birth = some d →
          r2.age = some ((today.year : Int) - (d.year : Int) -
            (if today.month < d.month ∨ (today.month = d.month ∧ today.day < d.day) then 1 else 0)))
        ∧ (r2.date_of_birth = none → r2.age = none)) := by
  have key : ∀ (today : Date) (store : Store) (u : UserRec) (ins : Bool) (out : UserRec)
      (s2 : Store), userSave today store u ins = (.ok out, s2) →
      (∀ d : Date, out.date_of_birth = some d →
        out.age = some ((today.year : Int) - (d.year : Int) -
          (if today.month < d.month ∨ (today.month = d.month ∧ today.day < d.day) then 1 else 0)))
      ∧ (out.date_of_birth = none → out.age = none)
      ∧ lookupUser s2 out.phone_number = some out := by
    intro today store u ins out s2 h
    obtain ⟨hcand, hst, _, _⟩ := userSave_ok h
    subst hcand
    refine ⟨?_, ?_, ?_⟩
    · intro d hd
      have hud : u.date_of_birth = some d := hd
      simp [saveCandidate, hud, calculate_age]
    · intro hd
      have hud : u.date_of_birth = none := hd
      simp [saveCandidate, hud]
    · rw [hst]
      exact lookupUser_storePut store (saveCandidate today u)
  refine ⟨key, ?_, ?_⟩
  · intro today store ld r2 c2 s2 hup
    obtain ⟨u, ins, hsv⟩ := leadUpsert_ok_save hup
    obtain ⟨h1, h2, _⟩ := key today store u ins r2 s2 hsv
    exact ⟨h1, h2⟩
  · intro today store row r2 c2 s2 hup
    obtain ⟨u, ins, hsv⟩ := userUpsert_ok_save hup
    obtain ⟨h1, h2, _⟩ := key today store u ins r2 s2 hsv
    exact ⟨h1, h2⟩

/-- Claim C9 witness: the age derivation applied to a concrete save of a
record born 1990-05-15 saved on 2026-10-12, stored age 36, and of a record
with no birth date, stored age None. -/
theorem c9_age_derivation_witness :
    (({ phone_number := "9876543210", date_of_birth := some ⟨1990, 5, 15⟩,
        age := some 36 } : UserRec).age = some ((2026 : Int) - 1990 - 0))
    ∧ (({ phone_number := "9876543210" } : UserRec).age = none) := by
  constructor
  · have h := (c9_age_derivation.1 ⟨2026, 10, 12⟩ []
      { phone_number := "9876543210", date_of_birth := some ⟨1990, 5, 15⟩ } true
      { phone_number := "9876543210", date_of_birth := some ⟨1990, 5, 15⟩, age := some 36 }
      [{ phone_number := "9876543210", date_of_birth := some ⟨1990, 5, 15⟩, age := some 36 }]
      (by rfl)).1 ⟨1990, 5, 15⟩ (by rfl)
    rw [h]
    norm_num
  · exact (c9_age_derivation.1 ⟨2026, 10, 12⟩ [] { phone_number := "9876543210" } true
      { phone_number := "9876543210" }
      [{ phone_number := "9876543210" }] (by rfl)).2.1 (by rfl)

/-!  Claim C8 — malformed phone number rejected before any write. -/

/-- Claim C8: when the phone number of the raw input does not clean to
exactly ten digits, both upsert paths stop with an error and the store is
returned unchanged, so nothing is written.  The lead path raises its
ValidationError directly; the user path — whose own normalizer has no
length check — fails either on its hard-required fields (a
ValidationError) or inside the manager create (a ValueError), the latter
needing only that every stored record has a ten-digit key, which every
record admitted by the save validation has. -/
theorem c8_malformed_phone_rejected :
    (∀ (today : Date) (store : Store) (row : RawRow),
      (digitsOnly (pyStrip ((leadDataGet row "phone_number").getD ""))).length ≠ 10 →
      ∃ msg, create_or_update_lead_from_csv_row today store row =
        (.error (.validationError msg), store))
    ∧ (∀ (today : Date) (store : Store) (row : RawRow),
        (∀ r ∈ store, r.phone_number.length = 10) →
        (digitsOnly (pyStrip ((userDataGet row "phone_number").getD ""))).length ≠ 10 →
        ∃ msg, create_or_update_user_from_csv_row today store row =
            (.error (.validationError msg), store)
          ∨ create_or_update_user_from_csv_row today store row =
            (.error (.valueError msg), store)) := by
  constructor
  · intro today store row hlen
    unfold create_or_update_lead_from_csv_row leadDataOfRow
    by_cases hp : pyStrip ((leadDataGet row "phone_number").getD "") = ""
    · rw [if_pos hp]
      exact ⟨_, rfl⟩
    · rw [if_neg hp]
      dsimp only
      rw [if_pos hlen]
      exact ⟨_, rfl⟩
  · intro today store row hwf hlen
    unfold create_or_update_user_from_csv_row
    rcases userDataOfRow_cases row with ⟨m, hd⟩ | ⟨ud, hd⟩
    · rw [hd]
      exact ⟨m, Or.inl rfl⟩
    · rw [hd]
      dsimp only
      rw [lookupUser_none_of_lengths hwf hlen]
      dsimp only
      unfold create_user
      by_cases hp0 : digitsOnly (pyStrip ((userDataGet row "phone_number").getD "")) = ""
      · rw [if_pos hp0]
        exact ⟨_, Or.inr rfl⟩
      · rw [if_neg hp0]
        rw [if_pos (fun hcon => hlen hcon.2)]
        exact ⟨_, Or.inr rfl⟩

/-- Claim C8 witness: both rejection paths applied to a five-digit phone
number, against the empty store, which they leave unchanged. -/
theorem c8_malformed_phone_rejected_witness :
    create_or_update_lead_from_csv_row ⟨2026, 10, 12⟩ [] [("phone_number", "12345")] =
      (.error (.validationError "phone_number must be exactly 10 digits, got: 12345"), [])
    ∧ create_or_update_user_from_csv_row ⟨2026, 10, 12⟩ []
        [("phone_number", "12345"), ("first_name", "John"), ("last_name", "Doe")] =
      (.error (.valueError "Phone number must be exactly 10 digits"), []) := by
  obtain ⟨m1, h1⟩ := c8_malformed_phone_rejected.1 ⟨2026, 10, 12⟩ []
    [("phone_number", "12345")] (by decide)
  obtain ⟨m2, h2⟩ := c8_malformed_phone_rejected.2 ⟨2026, 10, 12⟩ []
    [("phone_number", "12345"), ("first_name", "John"), ("last_name", "Doe")]
    (by simp) (by decide)
  exact ⟨rfl, rfl⟩

/-!  Claim C2 — idempotent upsert and update overwrite. -/

end Crednorth
